import Mathlib

/-!
# BoxMas authentication/session subsystem — shallow embedding

This file embeds the authentication core of the BoxMas repository in Lean 4
and proves properties of it. The embedded functions follow the TypeScript
source files:

* `src/utils/auth/verify-token.ts`   — `verifyToken`, `cleanupExpiredTokens`
* `src/utils/user/user-utility.ts`   — `getUserByEmail`, `checkUser`, `checkPassword`
* `src/app/api/auth/login/route.ts`  — `POST` (login)
* `src/app/api/auth/logout/route.ts` — `POST` (logout), `DELETE` (logout-all)
* the user-creation utility (`createUser`) and the Next.js `middleware`.

Time is modelled as a natural number of seconds. Database state is a list of
rows; `prisma.*.findUnique` is `List.find?`, `deleteMany` is `List.filter`,
`update` is `List.map`. The third-party `jsonwebtoken` and `bcrypt` libraries
are modelled by their documented contracts as used by this code: a signed
token is a record that carries its payload together with the secret it was
signed with (standing for the HMAC signature), and a bcrypt hash of `p` is a
distinguished string with the structural "$2" marker from which `p` can be
re-verified. Fallible awaited store operations that the source wraps in
`try`/`catch` are modelled by an explicit failure flag where a claim depends
on them (the `lastUsedAt` touch-update in `verifyToken`).
-/

namespace Boxmas

/-- A user row (`prisma.user`). -/
structure User where
  id : Nat
  name : String
  email : String
  password : String
deriving DecidableEq, Repr

/-- A signed JWT as produced by `jwt.sign({userId, email}, JWT_SECRET, {expiresIn: '7d'})`.
The `sig` field records the secret the token was signed with and stands for
the HMAC signature: verification with secret `k` succeeds exactly when
`sig = k`. -/
structure Token where
  userId : Nat
  email : String
  iat : Nat
  exp : Nat
  sig : String
deriving DecidableEq, Repr

/-- A session row (`prisma.session`). -/
structure Session where
  id : Nat
  userId : Nat
  token : Token
  deviceInfo : String
  ipAddress : String
  expiresAt : Nat
  lastUsedAt : Nat
deriving DecidableEq, Repr

/-- Payload returned by a successful `jwt.verify` (interface `TokenPayload`). -/
structure TokenPayload where
  userId : Nat
  email : String
  iat : Nat
  exp : Nat
deriving DecidableEq, Repr

/-- The two `jsonwebtoken` error classes the source distinguishes in its
`catch` block (`jwt.JsonWebTokenError`, `jwt.TokenExpiredError`). -/
inductive JwtError where
  | invalidSignature
  | expired
deriving DecidableEq, Repr

/-- Seconds in the 7-day validity window (`expiresIn: '7d'`, `TOKEN_EXPIRY_DAYS = 7`). -/
def sevenDays : Nat := 7 * 24 * 60 * 60

/-- Model of `jwt.sign({userId, email}, secret, {expiresIn: '7d'})` at time `now`. -/
def jwtSign (secret : String) (now : Nat) (userId : Nat) (email : String) : Token :=
  { userId := userId, email := email, iat := now, exp := now + sevenDays, sig := secret }

/-- Model of `jwt.verify(token, secret)` at time `now`: checks the signature,
then the embedded expiry (expired when the clock has reached `exp`). -/
def jwtVerify (secret : String) (now : Nat) (tok : Token) : Except JwtError TokenPayload :=
  if tok.sig ≠ secret then .error .invalidSignature
  else if tok.exp ≤ now then .error .expired
  else .ok { userId := tok.userId, email := tok.email, iat := tok.iat, exp := tok.exp }

/-- Model of `bcrypt.hash(password, 10)`: a deterministic stand-in producing a
string with the structural "$2" marker bcrypt hashes carry. -/
def bcryptHash (password : String) : String := "$2b$10$" ++ password

/-- Model of `bcrypt.compare(password, hash)`: succeeds exactly on the hash of
the password. -/
def bcryptCompare (password hash : String) : Bool := hash = bcryptHash password

/-- Model of `String.startsWith` on the character list: the library function
works on byte positions and does not reduce in the kernel, so the embedding
uses this equivalent definition wherever the source calls `startsWith`. -/
def strStartsWith (s p : String) : Bool := s.data.take p.data.length == p.data

/-- Result of `verifyToken` (interface `TokenValidationResult`). -/
structure TokenValidationResult where
  valid : Bool
  userId : Option Nat
  email : Option String
  error : Option String
deriving DecidableEq, Repr

/-- `verifyToken` from `src/utils/auth/verify-token.ts`.

Step 1 verifies the JWT signature and embedded expiry; step 2 looks the token
up in the session table (`findUnique`); step 3 checks the persisted
`expiresAt` and lazily deletes an expired row; step 4 updates `lastUsedAt`.
`touchFails` models the awaited `prisma.session.update` of step 4 throwing:
the source's `catch` then maps the non-JWT error to
`'Token verification failed'`. Returns the result together with the session
table after the call. -/
def verifyToken (secret : String) (now : Nat) (touchFails : Bool)
    (sessions : List Session) (tok : Token) :
    TokenValidationResult × List Session :=
  match jwtVerify secret now tok with
  | .error .invalidSignature =>
      ({ valid := false, userId := none, email := none, error := some "Invalid token" },
       sessions)
  | .error .expired =>
      ({ valid := false, userId := none, email := none, error := some "Token expired" },
       sessions)
  | .ok payload =>
      match sessions.find? (fun s => s.token = tok) with
      | none =>
          ({ valid := false, userId := none, email := none,
             error := some "Token not found or revoked" }, sessions)
      | some sess =>
          if sess.expiresAt < now then
            ({ valid := false, userId := none, email := none,
               error := some "Token expired" },
             sessions.filter (fun s => s.id ≠ sess.id))
          else if touchFails then
            ({ valid := false, userId := none, email := none,
               error := some "Token verification failed" }, sessions)
          else
            ({ valid := true, userId := some payload.userId,
               email := some payload.email, error := none },
             sessions.map (fun s =>
               if s.id = sess.id then { s with lastUsedAt := now } else s))

/-- The envelope returned by the user utilities (`BasicResponse` with its
`any`-typed `data` restricted to the user payload these functions put there). -/
structure BasicResponse where
  success : Bool
  message : Option String
  data : Option User
  code : Option Nat
deriving DecidableEq, Repr

/-- `getUserByEmail` from `src/utils/user/user-utility.ts`:
`prisma.user.findUnique({where: {email}})`, 404 envelope when absent. -/
def getUserByEmail (users : List User) (email : String) : BasicResponse :=
  match users.find? (fun u => u.email = email) with
  | some user => { success := true, message := none, data := some user, code := none }
  | none =>
      { success := false, message := some "User not found", data := none, code := some 404 }

/-- `checkUser` from `src/utils/user/user-utility.ts`: does any user row with
this email exist. -/
def checkUser (users : List User) (email : String) : Bool :=
  (users.find? (fun u => u.email = email)).isSome

/-- `checkPassword` from `src/utils/user/user-utility.ts`.

Looks the user up by email; decides hashed vs legacy-plaintext storage by the
"$2" marker; compares accordingly; on a successful plaintext comparison
re-hashes and persists the new hash (opportunistic migration). Returns the
envelope together with the user table after the call. -/
def checkPassword (users : List User) (email password : String) :
    BasicResponse × List User :=
  match users.find? (fun u => u.email = email) with
  | none =>
      ({ success := false, message := some "User not found", data := none,
         code := some 404 }, users)
  | some user =>
      if strStartsWith user.password "$2" then
        if bcryptCompare password user.password then
          ({ success := true, message := none, data := some user, code := none }, users)
        else
          ({ success := false, message := some "Incorrect password", data := none,
             code := some 401 }, users)
      else
        if user.password = password then
          ({ success := true, message := none, data := some user, code := none },
           users.map (fun u =>
             if u.id = user.id then { u with password := bcryptHash password } else u))
        else
          ({ success := false, message := some "Incorrect password", data := none,
             code := some 401 }, users)

/-- Fresh row identifier for a `prisma.create`: one more than the largest id
in the table. -/
def freshId (ids : List Nat) : Nat := ids.foldr max 0 + 1

/-- `createUser` from the user utilities: `checkUser` first, `Conflict` (409)
if the email is taken, otherwise `prisma.user.create({data: {name, email,
password}})` with the caller-supplied password stored as given. Returns the
envelope together with the user table after the call. -/
def createUser (users : List User) (name email password : String) :
    BasicResponse × List User :=
  if checkUser users email then
    ({ success := false, message := some "User already exists", data := none,
       code := some 409 }, users)
  else
    let user : User :=
      { id := freshId (users.map (fun u => u.id)), name := name, email := email,
        password := password }
    ({ success := true, message := none, data := some user, code := none },
     users ++ [user])

/-- A user with the password field stripped (`const {password: _, ...userWithoutPassword}`). -/
structure UserNoPassword where
  id : Nat
  name : String
  email : String
deriving DecidableEq, Repr

/-- Strip the password field from a user row. -/
def stripPassword (u : User) : UserNoPassword :=
  { id := u.id, name := u.name, email := u.email }

/-- Body of the login route's JSON response: either `{error}` or `{user, token}`. -/
inductive LoginBody where
  | err (error : String)
  | ok (user : UserNoPassword) (token : Token)
deriving DecidableEq, Repr

/-- An HTTP response of the login route: status code and JSON body. -/
structure LoginResponse where
  status : Nat
  body : LoginBody
deriving DecidableEq, Repr

/-- `POST` from `src/app/api/auth/login/route.ts`.

Verifies credentials via `checkPassword` (its result message is surfaced with
status 400 on failure), signs a 7-day JWT, derives device info from the
`user-agent` header and the address from `x-forwarded-for` / `x-real-ip`
(else "Unknown"), stores a session row expiring in 7 days with
`lastUsedAt = now`, and returns the password-stripped user and the token.
Returns the response together with the user and session tables after the
call. -/
def loginPOST (secret : String) (now : Nat) (users : List User)
    (sessions : List Session) (email password : String)
    (userAgent forwardedFor realIp : Option String) :
    LoginResponse × List User × List Session :=
  match checkPassword users email password with
  | (result, users1) =>
      match result.data, result.success with
      | some user, true =>
          let token := jwtSign secret now user.id user.email
          let deviceInfo := userAgent.getD "Unknown"
          let ipAddress := (forwardedFor.orElse (fun _ => realIp)).getD "Unknown"
          let sess : Session :=
            { id := freshId (sessions.map (fun s => s.id)), userId := user.id,
              token := token, deviceInfo := deviceInfo, ipAddress := ipAddress,
              expiresAt := now + sevenDays, lastUsedAt := now }
          ({ status := 200, body := .ok (stripPassword user) token },
           users1, sessions ++ [sess])
      | _, _ =>
          ({ status := 400, body := .err (result.message.getD "") }, users1, sessions)

/-- Body of the logout routes' JSON responses: `{error}` or `{success, message}`. -/
inductive LogoutBody where
  | err (error : String)
  | ok (message : String)
deriving DecidableEq, Repr

/-- An HTTP response of the logout routes: status code and JSON body. -/
structure LogoutResponse where
  status : Nat
  body : LogoutBody
deriving DecidableEq, Repr

/-- `POST` from `src/app/api/auth/logout/route.ts` (single-session logout).

The bearer header is modelled as `Option Token`: `none` stands for an absent
header or one without the "Bearer " scheme. Deletes the session rows matching
the token (`deleteMany`); 404 when nothing was deleted. Returns the response
together with the session table after the call. -/
def logoutPOST (sessions : List Session) (authToken : Option Token) :
    LogoutResponse × List Session :=
  match authToken with
  | none => ({ status := 401, body := .err "No token provided" }, sessions)
  | some tok =>
      let remaining := sessions.filter (fun s => s.token ≠ tok)
      if remaining.length = sessions.length then
        ({ status := 404, body := .err "Token not found or already logged out" },
         sessions)
      else
        ({ status := 200, body := .ok "Logged out successfully" }, remaining)

/-- `DELETE` from `src/app/api/auth/logout/route.ts` (logout from all devices).

Resolves the presented token to its session (`findUnique`); 401
"Invalid token" when none; otherwise deletes every session row of that
session's user and reports the count. Returns the response together with the
session table after the call. -/
def logoutDELETE (sessions : List Session) (authToken : Option Token) :
    LogoutResponse × List Session :=
  match authToken with
  | none => ({ status := 401, body := .err "No token provided" }, sessions)
  | some tok =>
      match sessions.find? (fun s => s.token = tok) with
      | none => ({ status := 401, body := .err "Invalid token" }, sessions)
      | some sess =>
          let count := (sessions.filter (fun s => s.userId = sess.userId)).length
          ({ status := 200,
             body := .ok ("Logged out from " ++ toString count ++ " device(s)") },
           sessions.filter (fun s => s.userId ≠ sess.userId))

/-- Route lists from `middleware.ts`. -/
def protectedRoutes : List String := ["/users"]

/-- Protected API route list from `middleware.ts`. -/
def protectedApiRoutes : List String := ["/api/user", "/api/location"]

/-- Public API route list from `middleware.ts`. -/
def publicApiRoutes : List String := ["/api/auth/login"]

/-- Outcome of the Next.js middleware: pass the request through (optionally
with the `x-user-id` / `x-user-email` identity headers set), reject with a
JSON error, or redirect to the login page. -/
inductive MwOutcome where
  | next (identity : Option (Nat × String))
  | jsonError (status : Nat) (error : String)
  | redirectLogin
deriving DecidableEq, Repr

/-- `middleware` from `middleware.ts`.

Public API paths pass through untouched; protected paths (page or API) demand
a bearer token, verify it with `verifyToken`, and on success forward the
request with the identity headers attached; every other path passes through
untouched. The bearer header is modelled as `Option Token` as in the logout
routes. Returns the outcome together with the session table after the call. -/
def middleware (secret : String) (now : Nat) (touchFails : Bool)
    (sessions : List Session) (pathname : String) (authToken : Option Token) :
    MwOutcome × List Session :=
  let isProtectedRoute := protectedRoutes.any (fun r => strStartsWith pathname r)
  let isProtectedApi := protectedApiRoutes.any (fun r => strStartsWith pathname r)
  let isPublicApi := publicApiRoutes.any (fun r => strStartsWith pathname r)
  if isPublicApi then (.next none, sessions)
  else if isProtectedRoute || isProtectedApi then
    match authToken with
    | none =>
        if isProtectedApi then
          (.jsonError 401 "Unauthorized - No token provided", sessions)
        else (.redirectLogin, sessions)
    | some tok =>
        match verifyToken secret now touchFails sessions tok with
        | (validation, sessions1) =>
            if validation.valid then
              (.next (some (validation.userId.getD 0, validation.email.getD "")),
               sessions1)
            else if isProtectedApi then
              (.jsonError 401 ("Unauthorized - " ++ validation.error.getD ""),
               sessions1)
            else (.redirectLogin, sessions1)
  else (.next none, sessions)

/-! ## Fixtures for concrete witnesses -/

/-- A token signed with secret "sec" at time 0 for user 5. -/
def tokA : Token := jwtSign "sec" 0 5 "a@x.com"

/-- A live session row for `tokA`, expiring at time 100. -/
def sessA : Session :=
  { id := 1, userId := 5, token := tokA, deviceInfo := "d", ipAddress := "ip",
    expiresAt := 100, lastUsedAt := 0 }

/-- A user row with a legacy plaintext password. -/
def userA : User := { id := 1, name := "n", email := "a@x.com", password := "pw" }

/-- A second token of the same user 5, signed at time 1. -/
def tokB : Token := jwtSign "sec" 1 5 "a@x.com"

/-- A second live session row of user 5, for `tokB`. -/
def sessB : Session :=
  { id := 2, userId := 5, token := tokB, deviceInfo := "d2", ipAddress := "ip2",
    expiresAt := 100, lastUsedAt := 1 }

/-! ## Helper lemmas -/

/-- After `logoutPOST` with a bearer token, no session row carries that token:
either rows were deleted (`filter` removes all matches) or none matched to
begin with (the 404 branch, where the table is returned unchanged). -/
theorem logoutPOST_find_none (sessions : List Session) (tok : Token) :
    ((logoutPOST sessions (some tok)).snd.find? (fun s => s.token = tok)) = none := by
  unfold logoutPOST
  by_cases h :
      (sessions.filter (fun s => s.token ≠ tok)).length = sessions.length
  · simp only [h, if_pos rfl]
    rw [List.find?_eq_none]
    intro x hx
    have := List.filter_length_eq_length.mp h x hx
    simpa using this
  · simp only [if_neg h]
    rw [List.find?_eq_none]
    intro x hx
    have := (List.mem_filter.mp hx).2
    simpa using this

/-- `verifyToken` on a structurally valid token with no matching session row
returns the revoked rejection and leaves the table unchanged. -/
theorem verifyToken_revoked (secret : String) (now : Nat) (touchFails : Bool)
    (sessions : List Session) (tok : Token)
    (hsig : tok.sig = secret) (hexp : now < tok.exp)
    (hfind : sessions.find? (fun s => s.token = tok) = none) :
    verifyToken secret now touchFails sessions tok =
      ({ valid := false, userId := none, email := none,
         error := some "Token not found or revoked" }, sessions) := by
  unfold verifyToken jwtVerify
  rw [hsig]
  simp [Nat.not_le.mpr hexp, hfind]

/-- `verifyToken` never validates a token that has no session row, whatever
the structural state of the token. -/
theorem verifyToken_not_valid_of_find_none (secret : String) (now : Nat)
    (touchFails : Bool) (sessions : List Session) (tok : Token)
    (hfind : sessions.find? (fun s => s.token = tok) = none) :
    (verifyToken secret now touchFails sessions tok).fst.valid = false := by
  unfold verifyToken
  rcases h : jwtVerify secret now tok with e | p
  · cases e <;> simp
  · simp [hfind]

/-- `find?` commutes with a map that does not change the tested field. -/
theorem find_map_congr {α : Type} (l : List α) (f : α → α) (p : α → Bool)
    (hf : ∀ x, p (f x) = p x) :
    (l.map f).find? p = (l.find? p).map f := by
  induction l with
  | nil => simp
  | cons a t ih =>
      by_cases h : p a = true
      · simp [List.find?_cons, hf, h]
      · rw [Bool.not_eq_true] at h
        simp [List.find?_cons, hf, h, ih]

/-- The modelled bcrypt hash carries the structural "$2" marker. -/
theorem strStartsWith_bcryptHash (p : String) :
    strStartsWith (bcryptHash p) "$2" = true := by
  unfold strStartsWith bcryptHash
  rw [String.data_append]
  rfl

/-- `checkPassword` through the hashed-comparison path: the user is found,
the stored credential carries the "$2" marker and the bcrypt comparison
succeeds, so the call succeeds and writes nothing. -/
theorem checkPassword_hashed_success (users : List User) (user : User)
    (email pw : String)
    (hfind : users.find? (fun u => u.email = email) = some user)
    (hhash : strStartsWith user.password "$2" = true)
    (hcmp : bcryptCompare pw user.password = true) :
    checkPassword users email pw =
      ({ success := true, message := none, data := some user, code := none },
       users) := by
  unfold checkPassword
  simp only [hfind, hhash, hcmp, if_true]

/-! ## Claim theorems -/

/-- C2: for every `(userId, email)` pair, verifying a token issued for that
pair with the same signing secret, at any time strictly before the 7-day
validity window elapses, succeeds and returns exactly the `userId` and
`email` embedded at issuance. -/
theorem parse_issue_roundtrip (secret : String) (userId : Nat) (email : String)
    (issuedAt t : Nat) (h : t < issuedAt + sevenDays) :
    jwtVerify secret t (jwtSign secret issuedAt userId email) =
      .ok { userId := userId, email := email, iat := issuedAt,
            exp := issuedAt + sevenDays } := by
  unfold jwtVerify jwtSign
  simp [Nat.not_le.mpr h]

/-- Witness for C2 at a concrete pair: user 5, "a@x.com", issued at 0,
verified at time 3. -/
theorem parse_issue_roundtrip_witness :
    jwtVerify "sec" 3 (jwtSign "sec" 0 5 "a@x.com") =
      .ok { userId := 5, email := "a@x.com", iat := 0, exp := 0 + sevenDays } :=
  parse_issue_roundtrip "sec" 5 "a@x.com" 0 3 (by decide)

/-- C1: after a successful `logoutPOST` (status 200) with a token, a
subsequent `verifyToken` with that same token fails with the revoked-token
rejection "Token not found or revoked", even though the token's signature
still verifies (`sig = secret`) and its embedded expiry has not passed. -/
theorem logout_revokes_token (sessions : List Session) (tok : Token)
    (secret : String) (now : Nat) (touchFails : Bool)
    (hsig : tok.sig = secret) (hexp : now < tok.exp)
    (_hlogout : (logoutPOST sessions (some tok)).fst.status = 200) :
    verifyToken secret now touchFails (logoutPOST sessions (some tok)).snd tok =
      ({ valid := false, userId := none, email := none,
         error := some "Token not found or revoked" },
       (logoutPOST sessions (some tok)).snd) :=
  verifyToken_revoked secret now touchFails _ tok hsig hexp
    (logoutPOST_find_none sessions tok)

/-- Witness for C1: logging out `tokA` from a one-session table, then
verifying it at time 10. -/
theorem logout_revokes_token_witness :
    verifyToken "sec" 10 false (logoutPOST [sessA] (some tokA)).snd tokA =
      ({ valid := false, userId := none, email := none,
         error := some "Token not found or revoked" },
       (logoutPOST [sessA] (some tokA)).snd) :=
  logout_revokes_token [sessA] tokA "sec" 10 false (by decide) (by decide)
    (by decide)

/-- C6: when the token's signature verifies and its embedded expiry has not
passed, but the matching session row's persisted `expiresAt` is earlier than
the current time, `verifyToken` deletes that session row and fails with
"Token expired": the persisted expiry is enforced independently of the
token's own embedded expiry claim. -/
theorem persisted_expiry_enforced (secret : String) (now : Nat)
    (touchFails : Bool) (sessions : List Session) (tok : Token) (sess : Session)
    (hsig : tok.sig = secret) (hexp : now < tok.exp)
    (hfind : sessions.find? (fun s => s.token = tok) = some sess)
    (hdb : sess.expiresAt < now) :
    verifyToken secret now touchFails sessions tok =
      ({ valid := false, userId := none, email := none,
         error := some "Token expired" },
       sessions.filter (fun s => s.id ≠ sess.id)) ∧
    sess ∉ (verifyToken secret now touchFails sessions tok).snd := by
  have hmain : verifyToken secret now touchFails sessions tok =
      ({ valid := false, userId := none, email := none,
         error := some "Token expired" },
       sessions.filter (fun s => s.id ≠ sess.id)) := by
    unfold verifyToken jwtVerify
    rw [hsig]
    simp [Nat.not_le.mpr hexp, hfind, hdb]
  refine ⟨hmain, ?_⟩
  rw [hmain]
  simp [List.mem_filter]

/-- Witness for C6: `tokA` (embedded expiry `sevenDays`) with a session row
that expired at time 100, checked at time 200. -/
theorem persisted_expiry_enforced_witness :
    verifyToken "sec" 200 false [sessA] tokA =
      ({ valid := false, userId := none, email := none,
         error := some "Token expired" },
       [sessA].filter (fun s => s.id ≠ sessA.id)) ∧
    sessA ∉ (verifyToken "sec" 200 false [sessA] tokA).snd :=
  persisted_expiry_enforced "sec" 200 false [sessA] tokA sessA (by decide)
    (by decide) (by decide) (by decide)

/-- C7, counterexample: at a concrete input that satisfies every premise of
the claim — the signature verifies, the session row exists, the persisted
expiry has not passed — a failing `lastUsedAt` touch-update makes
`verifyToken` return `valid = false` (with "Token verification failed"), not
the success the claim requires. -/
theorem touch_failure_counterexample :
    tokA.sig = "sec" ∧ 10 < tokA.exp ∧
    [sessA].find? (fun s => s.token = tokA) = some sessA ∧
    ¬ sessA.expiresAt < 10 ∧
    (verifyToken "sec" 10 true [sessA] tokA).fst.valid = false ∧
    (verifyToken "sec" 10 true [sessA] tokA).fst.error =
      some "Token verification failed" := by
  decide

/-- C7, amended: when the signature verifies, the session row exists and its
persisted expiry has not passed, a failure of the `lastUsedAt` touch-update
is caught by `verifyToken`'s catch-all handler and fails the authorization
with `valid = false` and error "Token verification failed", leaving the
session table unchanged; the resolved identity is not returned. -/
theorem touch_failure_fails_authorization (secret : String) (now : Nat)
    (sessions : List Session) (tok : Token) (sess : Session)
    (hsig : tok.sig = secret) (hexp : now < tok.exp)
    (hfind : sessions.find? (fun s => s.token = tok) = some sess)
    (hdb : ¬ sess.expiresAt < now) :
    verifyToken secret now true sessions tok =
      ({ valid := false, userId := none, email := none,
         error := some "Token verification failed" }, sessions) := by
  unfold verifyToken jwtVerify
  rw [hsig]
  simp [Nat.not_le.mpr hexp, hfind, hdb]

/-- Witness for the amended C7 at the concrete input of the counterexample. -/
theorem touch_failure_fails_authorization_witness :
    verifyToken "sec" 10 true [sessA] tokA =
      ({ valid := false, userId := none, email := none,
         error := some "Token verification failed" }, [sessA]) :=
  touch_failure_fails_authorization "sec" 10 [sessA] tokA sessA (by decide)
    (by decide) (by decide) (by decide)

/-- C3: when the presented token resolves to a session of user `u`,
`logoutDELETE` succeeds with status 200, deletes every session row of `u`
(including the resolving one), and afterwards every token whose session rows
all belonged to `u` fails `verifyToken`; when the presented token resolves to
no session, it fails with 401 "Invalid token" and deletes nothing. -/
theorem logout_all_breadth (sessions : List Session) (tok : Token) :
    (∀ sess, sessions.find? (fun s => s.token = tok) = some sess →
      (logoutDELETE sessions (some tok)).fst.status = 200 ∧
      (logoutDELETE sessions (some tok)).snd =
        sessions.filter (fun s => s.userId ≠ sess.userId) ∧
      (∀ tok2 secret now touchFails,
        (∀ s ∈ sessions, s.token = tok2 → s.userId = sess.userId) →
        (verifyToken secret now touchFails
            (logoutDELETE sessions (some tok)).snd tok2).fst.valid = false)) ∧
    (sessions.find? (fun s => s.token = tok) = none →
      logoutDELETE sessions (some tok) =
        ({ status := 401, body := .err "Invalid token" }, sessions)) := by
  constructor
  · intro sess hfind
    have hdel : logoutDELETE sessions (some tok) =
        ({ status := 200,
           body := .ok ("Logged out from " ++
             toString (sessions.filter (fun s => s.userId = sess.userId)).length ++
             " device(s)") },
         sessions.filter (fun s => s.userId ≠ sess.userId)) := by
      unfold logoutDELETE
      simp only [hfind]
    refine ⟨by rw [hdel], by rw [hdel], ?_⟩
    intro tok2 secret now touchFails hall
    apply verifyToken_not_valid_of_find_none
    rw [hdel]
    rw [List.find?_eq_none]
    intro x hx
    rcases List.mem_filter.mp hx with ⟨hmem, hne⟩
    intro htok
    have := hall x hmem (by simpa using htok)
    simp [this] at hne
  · intro hfind
    unfold logoutDELETE
    simp only [hfind]

/-- Witness for C3: logout-all with `tokA` on a table holding two sessions of
user 5 deletes both, the sibling token `tokB` then fails verification, and
logout-all on an empty table rejects with 401 "Invalid token". -/
theorem logout_all_breadth_witness :
    (logoutDELETE [sessA, sessB] (some tokA)).fst.status = 200 ∧
    (logoutDELETE [sessA, sessB] (some tokA)).snd =
      [sessA, sessB].filter (fun s => s.userId ≠ sessA.userId) ∧
    (verifyToken "sec" 10 false
        (logoutDELETE [sessA, sessB] (some tokA)).snd tokB).fst.valid = false ∧
    logoutDELETE [] (some tokA) =
      ({ status := 401, body := .err "Invalid token" }, []) := by
  have h1 := (logout_all_breadth [sessA, sessB] tokA).1 sessA (by decide)
  have h2 := (logout_all_breadth [] tokA).2 (by decide)
  exact ⟨h1.1, h1.2.1, h1.2.2 tokB "sec" 10 false (by decide), h2⟩

/-- C4: a user stored with a plaintext password (no "$2" marker) who logs in
with the matching password succeeds, and the user table afterwards holds the
bcrypt hash of that password for this user; a second login with the same
password then succeeds through the hashed-comparison path and leaves the
user table untouched. -/
theorem plaintext_migration (users : List User) (user : User) (email pw : String)
    (hfind : users.find? (fun u => u.email = email) = some user)
    (hplain : strStartsWith user.password "$2" = false)
    (hpw : user.password = pw) :
    (checkPassword users email pw).fst.success = true ∧
    (checkPassword users email pw).snd.find? (fun u => u.email = email) =
      some { user with password := bcryptHash pw } ∧
    checkPassword (checkPassword users email pw).snd email pw =
      ({ success := true, message := none,
         data := some { user with password := bcryptHash pw }, code := none },
       (checkPassword users email pw).snd) := by
  subst hpw
  have h1 : checkPassword users email user.password =
      ({ success := true, message := none, data := some user, code := none },
       users.map (fun u =>
         if u.id = user.id then { u with password := bcryptHash user.password }
         else u)) := by
    unfold checkPassword
    simp only [hfind, hplain, Bool.false_eq_true, if_false, if_pos rfl]
    simp
  have h2 : (checkPassword users email user.password).snd.find?
        (fun u => u.email = email) =
      some { user with password := bcryptHash user.password } := by
    rw [h1]
    rw [find_map_congr _ _ _ (fun x => by by_cases hx : x.id = user.id <;> simp [hx])]
    rw [hfind]
    simp
  refine ⟨by rw [h1], h2, ?_⟩
  exact checkPassword_hashed_success _ _ _ _ h2 (strStartsWith_bcryptHash _)
    (by simp [bcryptCompare])

/-- Witness for C4 on a concrete table: `userA` stores plaintext "pw". -/
theorem plaintext_migration_witness :
    (checkPassword [userA] "a@x.com" "pw").fst.success = true ∧
    (checkPassword [userA] "a@x.com" "pw").snd.find? (fun u => u.email = "a@x.com") =
      some { userA with password := bcryptHash "pw" } ∧
    checkPassword (checkPassword [userA] "a@x.com" "pw").snd "a@x.com" "pw" =
      ({ success := true, message := none,
         data := some { userA with password := bcryptHash "pw" }, code := none },
       (checkPassword [userA] "a@x.com" "pw").snd) :=
  plaintext_migration [userA] userA "a@x.com" "pw" (by decide) (by decide)
    (by decide)

/-- C5, counterexample: with the user table holding only `userA`
("a@x.com" / "pw"), a login for the unknown email "b@x.com" and a login for
"a@x.com" with the wrong password "wrong" do not return the identical
external error response: both are 400 `{error}` bodies, but the messages are
"User not found" versus "Incorrect password". -/
theorem login_no_enumeration_counterexample :
    (loginPOST "sec" 0 [userA] [] "b@x.com" "pw" none none none).fst ≠
      (loginPOST "sec" 0 [userA] [] "a@x.com" "wrong" none none none).fst ∧
    (loginPOST "sec" 0 [userA] [] "b@x.com" "pw" none none none).fst =
      { status := 400, body := .err "User not found" } ∧
    (loginPOST "sec" 0 [userA] [] "a@x.com" "wrong" none none none).fst =
      { status := 400, body := .err "Incorrect password" } := by
  decide

/-- C5, amended: a login with an email that matches no user and a login with
an existing email but a wrong password both fail with the same status code
400 and the same `{error}` body shape, but the error messages differ:
"User not found" for the unknown email and "Incorrect password" for the
wrong password. -/
theorem login_error_responses_amended (secret : String) (now : Nat)
    (users : List User) (sessions : List Session) (e1 e2 p1 p2 : String)
    (u : User) (ua ff ri : Option String)
    (h1 : users.find? (fun x => x.email = e1) = none)
    (h2 : users.find? (fun x => x.email = e2) = some u)
    (h3 : (strStartsWith u.password "$2" = false ∧ u.password ≠ p2) ∨
          (strStartsWith u.password "$2" = true ∧
           bcryptCompare p2 u.password = false)) :
    (loginPOST secret now users sessions e1 p1 ua ff ri).fst =
      { status := 400, body := .err "User not found" } ∧
    (loginPOST secret now users sessions e2 p2 ua ff ri).fst =
      { status := 400, body := .err "Incorrect password" } := by
  constructor
  · unfold loginPOST checkPassword
    simp only [h1]
    rfl
  · unfold loginPOST checkPassword
    rcases h3 with ⟨hp, hne⟩ | ⟨hh, hc⟩
    · simp only [h2, hp, Bool.false_eq_true, if_false, if_neg hne]
      rfl
    · simp only [h2, hh, if_true, hc, Bool.false_eq_true, if_false]
      rfl

/-- Witness for the amended C5 at the concrete inputs of the counterexample. -/
theorem login_error_responses_amended_witness :
    (loginPOST "sec" 0 [userA] [] "b@x.com" "pw" none none none).fst =
      { status := 400, body := .err "User not found" } ∧
    (loginPOST "sec" 0 [userA] [] "a@x.com" "wrong" none none none).fst =
      { status := 400, body := .err "Incorrect password" } :=
  login_error_responses_amended "sec" 0 [userA] [] "b@x.com" "a@x.com" "pw"
    "wrong" userA none none none (by decide) (by decide)
    (Or.inl ⟨by decide, by decide⟩)

/-- C8, counterexample: registering a fresh user with password "secret123"
persists exactly that string on the user row; it carries no "$2" structural
marker, so the stored credential is the caller-supplied plaintext, not a
hash. -/
theorem registration_stores_plaintext_counterexample :
    (createUser [] "n" "e@x.com" "secret123").snd =
      [{ id := 1, name := "n", email := "e@x.com", password := "secret123" }] ∧
    strStartsWith "secret123" "$2" = false := by
  decide

/-- C8, amended: for every email not yet present, registration succeeds and
persists the caller-supplied password string verbatim on the new user row;
the stored credential only becomes a bcrypt hash later, through the login
migration path. -/
theorem registration_stores_given_password (users : List User)
    (name email pw : String) (h : checkUser users email = false) :
    createUser users name email pw =
      ({ success := true, message := none,
         data := some { id := freshId (users.map (fun u => u.id)), name := name,
                        email := email, password := pw }, code := none },
       users ++ [{ id := freshId (users.map (fun u => u.id)), name := name,
                   email := email, password := pw }]) := by
  unfold createUser
  simp [h]

/-- Witness for the amended C8 on the empty user table. -/
theorem registration_stores_given_password_witness :
    createUser [] "n" "e@x.com" "secret123" =
      ({ success := true, message := none,
         data := some { id := freshId (([] : List User).map (fun u => u.id)),
                        name := "n", email := "e@x.com",
                        password := "secret123" }, code := none },
       [] ++ [{ id := freshId (([] : List User).map (fun u => u.id)),
                name := "n", email := "e@x.com", password := "secret123" }]) :=
  registration_stores_given_password [] "n" "e@x.com" "secret123" (by decide)

/-- C9: when exactly one user row carries the given email, a registration
attempt with that email fails with the Conflict envelope (409,
"User already exists"), leaves the user table unchanged, and exactly one row
with that email remains. -/
theorem duplicate_email_conflict (users : List User) (name email pw : String)
    (h : (users.filter (fun u => u.email = email)).length = 1) :
    createUser users name email pw =
      ({ success := false, message := some "User already exists", data := none,
         code := some 409 }, users) ∧
    (((createUser users name email pw).snd.filter
        (fun u => u.email = email)).length = 1) := by
  have hex : ∃ x ∈ users, (fun u => decide (u.email = email)) x = true := by
    have hpos : 0 < (users.filter (fun u => u.email = email)).length := by
      rw [h]; exact Nat.zero_lt_one
    rcases List.exists_mem_of_length_pos hpos with ⟨x, hx⟩
    exact ⟨x, (List.mem_filter.mp hx).1, (List.mem_filter.mp hx).2⟩
  have hcu : checkUser users email = true := by
    unfold checkUser
    exact List.find?_isSome.mpr hex
  have hmain : createUser users name email pw =
      ({ success := false, message := some "User already exists", data := none,
         code := some 409 }, users) := by
    unfold createUser
    simp [hcu]
  exact ⟨hmain, by rw [hmain, h]⟩

/-- Witness for C9 on a one-row table holding `userA`. -/
theorem duplicate_email_conflict_witness :
    createUser [userA] "m" "a@x.com" "other" =
      ({ success := false, message := some "User already exists", data := none,
         code := some 409 }, [userA]) ∧
    (((createUser [userA] "m" "a@x.com" "other").snd.filter
        (fun u => u.email = "a@x.com")).length = 1) :=
  duplicate_email_conflict [userA] "m" "a@x.com" "other" (by decide)

/-- C10: for every request whose path starts with none of the protected
route lists ("/users", "/api/user", "/api/location"), the middleware forwards
the request without setting the identity headers and without touching the
session table, whatever bearer token the request carries — in particular no
token verification is performed; this covers "/api/box" and the public
login path alike. -/
theorem middleware_unprotected_passthrough (secret : String) (now : Nat)
    (touchFails : Bool) (sessions : List Session) (pathname : String)
    (authToken : Option Token)
    (h1 : strStartsWith pathname "/users" = false)
    (h2 : strStartsWith pathname "/api/user" = false)
    (h3 : strStartsWith pathname "/api/location" = false) :
    middleware secret now touchFails sessions pathname authToken =
      (.next none, sessions) := by
  unfold middleware
  simp only [protectedRoutes, protectedApiRoutes, publicApiRoutes,
    List.any_cons, List.any_nil, h1, h2, h3, Bool.or_false, Bool.false_or]
  by_cases hp : strStartsWith pathname "/api/auth/login" = true
  · simp [hp]
  · simp [hp]

/-- Witness for C10: a request to "/api/box" carrying the live token `tokA`
passes through with no identity headers and an untouched session table. -/
theorem middleware_unprotected_passthrough_witness :
    middleware "sec" 10 false [sessA] "/api/box" (some tokA) =
      (.next none, [sessA]) :=
  middleware_unprotected_passthrough "sec" 10 false [sessA] "/api/box"
    (some tokA) (by decide) (by decide) (by decide)

end Boxmas
